import Mathlib

/-!
Verification of the study-assistant pipeline (src/agent.py, src/llm_chains.py,
src/web_serach.py, src/config.py) against its natural-language specification.

The Python code is shallowly embedded: pure helper code becomes Lean
functions, the stage functions become state transformers over an explicit
record, and each call into an external collaborator (LLM, file system,
search service, telemetry) is a parameter returning a PyResult, which
models a Python call that either returns a value or raises an exception.
-/

/-- A Python computation that either returns a value or raises an exception
carrying the string produced by str(e). -/
inductive PyResult (α : Type) where
  | ok (val : α)
  | exc (msg : String)
deriving Repr, DecidableEq

/- ------------------------------------------------------------------ -/
/- Python string primitives, operating on the code-point list of a string
   exactly as Python string operations operate on code points.          -/
/- ------------------------------------------------------------------ -/

/-- Characters removed by Python str.strip() with no argument. -/
def pyIsSpace (c : Char) : Bool :=
  c = ' ' || c = '\t' || c = '\n' || c = '\r' || c = '\x0b' || c = '\x0c'

/-- Python str.strip(): remove whitespace from both ends. -/
def pyStripList (l : List Char) : List Char :=
  ((l.dropWhile pyIsSpace).reverse.dropWhile pyIsSpace).reverse

/-- Python str.split(sep) for a single-character separator: splits on every
occurrence and keeps empty pieces, so the result is always nonempty. -/
def splitOnChar (sep : Char) : List Char → List (List Char)
  | [] => [[]]
  | c :: rest =>
    let r := splitOnChar sep rest
    if c = sep then [] :: r
    else
      match r with
      | [] => [[c]]
      | h :: t => (c :: h) :: t

/-- Python sep.join(list). -/
def pyJoin (sep : String) : List String → String
  | [] => ""
  | [x] => x
  | x :: y :: xs => x ++ sep ++ pyJoin sep (y :: xs)

/-- Python len() on a string counts code points. -/
def pyLen (s : String) : Nat := s.data.length

/-- Python s[:n] slices the first n code points. -/
def pyTake (n : Nat) (s : String) : String := String.mk (s.data.take n)

/- ------------------------------------------------------------------ -/
/- src/config.py                                                       -/
/- ------------------------------------------------------------------ -/

/-- config.QuizQuestion. The pydantic model declares options as a plain
list of strings: no field constraint fixes its length. -/
structure QuizQuestion where
  question : String
  options : List String
  correct_answer : String
  explanation : String
  difficulty : String
deriving Repr, DecidableEq

/-- config.StudyMaterial. -/
structure StudyMaterial where
  content : String
  source : String
  topic : Option String
deriving Repr, DecidableEq

def Config.MAX_SUMMARY_LENGTH : Nat := 500

def Config.DEFAULT_NUM_QUESTIONS : Nat := 5

/- ------------------------------------------------------------------ -/
/- Python json.loads, as used by _parse_questions_from_response.       -/
/- ------------------------------------------------------------------ -/

/-- Parsed JSON values. Number lexemes are kept verbatim: the quiz parsing
only needs to know that a value is not a string. -/
inductive Json where
  | null
  | bool (b : Bool)
  | num (lexeme : String)
  | str (s : String)
  | arr (elems : List Json)
  | obj (members : List (String × Json))
deriving Repr

/-- Whitespace skipped between JSON tokens (the four characters accepted by
the Python json module). -/
def jsonSkipWs (l : List Char) : List Char :=
  l.dropWhile (fun c => c = ' ' || c = '\t' || c = '\n' || c = '\r')

def hexVal (c : Char) : Option Nat :=
  if '0' ≤ c ∧ c ≤ '9' then some (c.toNat - '0'.toNat)
  else if 'a' ≤ c ∧ c ≤ 'f' then some (c.toNat - 'a'.toNat + 10)
  else if 'A' ≤ c ∧ c ≤ 'F' then some (c.toNat - 'A'.toNat + 10)
  else none

/-- Parse the body of a JSON string after the opening quote, returning the
decoded characters and the input after the closing quote. Unescaped control
characters are rejected (json.loads runs in strict mode); surrogate pairs in
unicode escapes are combined, and a lone surrogate, which Lean characters
cannot represent, becomes the replacement character. The fuel argument only
bounds recursion depth; one unit per consumed character is always enough. -/
def parseJsonString : Nat → List Char → Option (List Char × List Char)
  | 0, _ => none
  | _ + 1, [] => none
  | fuel + 1, c :: rest =>
    if c = '"' then some ([], rest)
    else if c = '\\' then
      match rest with
      | [] => none
      | e :: rest2 =>
        if e = 'u' then
          match rest2 with
          | h1 :: h2 :: h3 :: h4 :: rest3 =>
            match hexVal h1, hexVal h2, hexVal h3, hexVal h4 with
            | some a, some b, some c2, some d =>
              let code := ((a * 16 + b) * 16 + c2) * 16 + d
              if 0xD800 ≤ code ∧ code ≤ 0xDBFF then
                match rest3 with
                | '\\' :: 'u' :: g1 :: g2 :: g3 :: g4 :: rest4 =>
                  match hexVal g1, hexVal g2, hexVal g3, hexVal g4 with
                  | some a2, some b2, some c3, some d2 =>
                    let code2 := ((a2 * 16 + b2) * 16 + c3) * 16 + d2
                    if 0xDC00 ≤ code2 ∧ code2 ≤ 0xDFFF then
                      let combined := 0x10000 + (code - 0xD800) * 0x400 + (code2 - 0xDC00)
                      (parseJsonString fuel rest4).map
                        (fun p => (Char.ofNat combined :: p.1, p.2))
                    else
                      (parseJsonString fuel rest3).map
                        (fun p => ('�' :: p.1, p.2))
                  | _, _, _, _ => none
                | _ =>
                  (parseJsonString fuel rest3).map (fun p => ('�' :: p.1, p.2))
              else if 0xDC00 ≤ code ∧ code ≤ 0xDFFF then
                (parseJsonString fuel rest3).map (fun p => ('�' :: p.1, p.2))
              else
                (parseJsonString fuel rest3).map (fun p => (Char.ofNat code :: p.1, p.2))
            | _, _, _, _ => none
          | _ => none
        else
          let esc : Option Char :=
            if e = '"' then some '"'
            else if e = '\\' then some '\\'
            else if e = '/' then some '/'
            else if e = 'b' then some '\x08'
            else if e = 'f' then some '\x0c'
            else if e = 'n' then some '\n'
            else if e = 'r' then some '\r'
            else if e = 't' then some '\t'
            else none
          match esc with
          | some ch => (parseJsonString fuel rest2).map (fun p => (ch :: p.1, p.2))
          | none => none
    else if c.toNat < 0x20 then none
    else (parseJsonString fuel rest).map (fun p => (c :: p.1, p.2))

/-- Zero or more decimal digits. -/
def parseDigits (l : List Char) : List Char × List Char :=
  (l.takeWhile Char.isDigit, l.dropWhile Char.isDigit)

/-- The integer part of the JSON number grammar: 0, or a nonzero digit
followed by digits (leading zeros are rejected, as in json.loads). -/
def parseIntPart : List Char → Option (List Char × List Char)
  | [] => none
  | c :: rest =>
    if c = '0' then some ([c], rest)
    else if '1' ≤ c ∧ c ≤ '9' then
      let (ds, r) := parseDigits rest
      some (c :: ds, r)
    else none

/-- The optional fraction part; consumed only when a full ".digits" group is
present, matching the number regex of the Python json module. -/
def parseFrac : List Char → List Char × List Char
  | '.' :: c :: rest =>
    if c.isDigit then
      let (ds, r) := parseDigits rest
      ('.' :: c :: ds, r)
    else ([], '.' :: c :: rest)
  | l => ([], l)

/-- The optional exponent part; consumed only when a full group with at
least one digit is present. -/
def parseExp (l : List Char) : List Char × List Char :=
  match l with
  | e :: rest =>
    if e = 'e' || e = 'E' then
      let (sign, rest2) :=
        match rest with
        | s :: r => if s = '+' || s = '-' then ([s], r) else (([] : List Char), rest)
        | [] => ([], rest)
      let (ds, r) := parseDigits rest2
      if ds = [] then ([], l) else (e :: (sign ++ ds), r)
    else ([], l)
  | [] => ([], [])

/-- A JSON number lexeme, including the Python json extensions Infinity and
-Infinity (NaN is handled at the value level). -/
def parseNumber (l : List Char) : Option (List Char × List Char) :=
  let (neg, l1) :=
    match l with
    | '-' :: r => (['-'], r)
    | _ => (([] : List Char), l)
  match l1 with
  | 'I' :: 'n' :: 'f' :: 'i' :: 'n' :: 'i' :: 't' :: 'y' :: r =>
    some (neg ++ ['I', 'n', 'f', 'i', 'n', 'i', 't', 'y'], r)
  | _ =>
    match parseIntPart l1 with
    | none => none
    | some (ip, l2) =>
      let (fp, l3) := parseFrac l2
      let (ep, l4) := parseExp l3
      some (neg ++ ip ++ fp ++ ep, l4)

mutual

/-- One JSON value, preceded by optional whitespace. -/
def parseValue : Nat → List Char → Option (Json × List Char)
  | 0, _ => none
  | fuel + 1, l =>
    match jsonSkipWs l with
    | [] => none
    | c :: rest =>
      if c = '{' then parseObjRest fuel rest
      else if c = '[' then parseArrRest fuel rest
      else if c = '"' then
        match parseJsonString (rest.length + 1) rest with
        | some (s, r) => some (.str (String.mk s), r)
        | none => none
      else
        match c :: rest with
        | 't' :: 'r' :: 'u' :: 'e' :: r => some (.bool true, r)
        | 'f' :: 'a' :: 'l' :: 's' :: 'e' :: r => some (.bool false, r)
        | 'n' :: 'u' :: 'l' :: 'l' :: r => some (.null, r)
        | 'N' :: 'a' :: 'N' :: r => some (.num (String.mk ['N', 'a', 'N']), r)
        | l2 =>
          match parseNumber l2 with
          | some (lex, r) => some (.num (String.mk lex), r)
          | none => none
termination_by structural fuel _ => fuel

/-- The rest of a JSON object after the opening brace. -/
def parseObjRest : Nat → List Char → Option (Json × List Char)
  | 0, _ => none
  | fuel + 1, l =>
    match jsonSkipWs l with
    | '}' :: r => some (.obj [], r)
    | l2 => parseMembers fuel l2 []
termination_by structural fuel _ => fuel

/-- A nonempty member list of a JSON object, accumulating bindings in
source order (so a duplicated key keeps both bindings; lookups below take
the last one, as a Python dict built by the json module does). -/
def parseMembers : Nat → List Char → List (String × Json) → Option (Json × List Char)
  | 0, _, _ => none
  | fuel + 1, l, acc =>
    match jsonSkipWs l with
    | '"' :: r =>
      match parseJsonString (r.length + 1) r with
      | none => none
      | some (ks, r2) =>
        match jsonSkipWs r2 with
        | ':' :: r3 =>
          match parseValue fuel r3 with
          | none => none
          | some (v, r4) =>
            let acc2 := acc ++ [(String.mk ks, v)]
            match jsonSkipWs r4 with
            | ',' :: r5 => parseMembers fuel r5 acc2
            | '}' :: r5 => some (.obj acc2, r5)
            | _ => none
        | _ => none
    | _ => none
termination_by structural fuel _ _ => fuel

/-- The rest of a JSON array after the opening bracket. -/
def parseArrRest : Nat → List Char → Option (Json × List Char)
  | 0, _ => none
  | fuel + 1, l =>
    match jsonSkipWs l with
    | ']' :: r => some (.arr [], r)
    | l2 => parseElems fuel l2 []
termination_by structural fuel _ => fuel

/-- A nonempty element list of a JSON array. -/
def parseElems : Nat → List Char → List Json → Option (Json × List Char)
  | 0, _, _ => none
  | fuel + 1, l, acc =>
    match parseValue fuel l with
    | none => none
    | some (v, r) =>
      let acc2 := acc ++ [v]
      match jsonSkipWs r with
      | ',' :: r2 => parseElems fuel r2 acc2
      | ']' :: r2 => some (.arr acc2, r2)
      | _ => none
termination_by structural fuel _ _ => fuel

end

/-- Python json.loads: exactly one value, with optional surrounding
whitespace; trailing text makes the whole parse fail. The fuel bounds
nesting depth, which never exceeds the input length. -/
def json_loads (s : String) : Option Json :=
  match parseValue (s.data.length + 1) s.data with
  | some (v, r) => if jsonSkipWs r = [] then some v else none
  | none => none

/- ------------------------------------------------------------------ -/
/- Pydantic validation: QuizQuestion(**data)                           -/
/- ------------------------------------------------------------------ -/

/-- Lookup in a parsed JSON object with Python dict semantics: the last
binding of a duplicated key wins. -/
def dictGet (kvs : List (String × Json)) (k : String) : Option Json :=
  match (kvs.filter (fun p => p.1 == k)).getLast? with
  | some p => some p.2
  | none => none

def jsonStr? : Json → Option String
  | .str s => some s
  | _ => none

def jsonStrList? : Json → Option (List String)
  | .arr xs => xs.mapM jsonStr?
  | _ => none

/-- Pydantic construction QuizQuestion(**data): every declared field is
required and must be a string (options a list of strings); extra keys are
ignored, and no constraint restricts the length of options. A failure
raises a ValidationError, modelled as none. -/
def quizQuestionFromJson : Json → Option QuizQuestion
  | .obj kvs => do
    let q ← (dictGet kvs ("question")).bind jsonStr?
    let opts ← (dictGet kvs ("options")).bind jsonStrList?
    let ca ← (dictGet kvs ("correct_answer")).bind jsonStr?
    let ex ← (dictGet kvs ("explanation")).bind jsonStr?
    let df ← (dictGet kvs ("difficulty")).bind jsonStr?
    pure { question := q, options := opts, correct_answer := ca,
           explanation := ex, difficulty := df }
  | _ => none

/- ------------------------------------------------------------------ -/
/- The candidate scanner: re.findall of the pattern                    -/
/-   \{[^{}]*(?:\{[^{}]*\}[^{}]*)*\}                                   -/
/- which matches a brace-delimited fragment tolerating one level of     -/
/- nested braces. Matching at a fixed start is deterministic because    -/
/- no character can both continue a character class and open or close   -/
/- a group, so the regex is embedded as a two-state machine.            -/
/- ------------------------------------------------------------------ -/

/-- Continue a match after the opening brace. The flag records whether the
scan is inside a depth-one nested brace group; acc holds the consumed
characters in reverse. Returns the whole match and the rest of the input. -/
def matchBody : Bool → List Char → List Char → Option (List Char × List Char)
  | _, _, [] => none
  | false, acc, c :: rest =>
    if c = '}' then some (('}' :: acc).reverse, rest)
    else if c = '{' then matchBody true ('{' :: acc) rest
    else matchBody false (c :: acc) rest
  | true, acc, c :: rest =>
    if c = '}' then matchBody false ('}' :: acc) rest
    else if c = '{' then none
    else matchBody true (c :: acc) rest

theorem matchBody_length_lt (b : Bool) (acc l : List Char) (m r : List Char)
    (h : matchBody b acc l = some (m, r)) : r.length < l.length := by
  induction l generalizing b acc with
  | nil => simp [matchBody] at h
  | cons c rest ih =>
    cases b <;> simp only [matchBody] at h <;> split_ifs at h
    · obtain ⟨-, h2⟩ := Option.some.injEq _ _ ▸ h
      cases h
      simp
    · exact Nat.lt_succ_of_lt (ih _ _ h)
    · exact Nat.lt_succ_of_lt (ih _ _ h)
    · exact Nat.lt_succ_of_lt (ih _ _ h)
    · exact Nat.lt_succ_of_lt (ih _ _ h)

/-- re.findall with the pattern above, with fuel bounding the number of
scan steps: try to match at every position from left to right; a
successful match is reported and scanning resumes after it, a failed
attempt moves one character forward. Every step consumes at least one
character, so fuel equal to the input length is always enough. -/
def findCandidatesF : Nat → List Char → List (List Char)
  | 0, _ => []
  | _ + 1, [] => []
  | fuel + 1, c :: rest =>
    if c = '{' then
      match matchBody false ['{'] rest with
      | some (m, r) => m :: findCandidatesF fuel r
      | none => findCandidatesF fuel rest
    else findCandidatesF fuel rest
termination_by structural fuel _ => fuel

/-- re.findall of the json_pattern over a text. -/
def findCandidates (l : List Char) : List (List Char) := findCandidatesF l.length l

/- ------------------------------------------------------------------ -/
/- src/llm_chains.py - QuizGenerationChain                             -/
/- ------------------------------------------------------------------ -/

/-- One candidate inside the for loop of _parse_questions_from_response:
json.loads followed by QuizQuestion(**data); any exception is swallowed by
the bare except and the loop continues. -/
def parseCandidate (cand : List Char) : Option QuizQuestion :=
  (json_loads (String.mk cand)).bind quizQuestionFromJson

/-- QuizGenerationChain._create_fallback_questions: deterministic
placeholder questions (the response argument is unused in the source). -/
def QuizGenerationChain.create_fallback_questions (response : String) (count : Nat) :
    List QuizQuestion :=
  (List.range count).map (fun i =>
    { question := "Question " ++ toString (i + 1) ++
        ": Based on the study material, what is an important concept to understand?"
      options := ["Option A - Review the material for details",
                  "Option B - Refer to key points",
                  "Option C - Study the content carefully",
                  "Option D - All of the above"]
      correct_answer := "D"
      explanation := "This is a placeholder question. Please review the study material."
      difficulty := "medium" })

/-- QuizGenerationChain._parse_questions_from_response: scan the response
for brace-delimited candidates, attempt to parse only the first
expected_count of them (matches[:expected_count]), pad with placeholders
when fewer parse, and truncate to expected_count. -/
def QuizGenerationChain.parse_questions_from_response (response : String)
    (expected_count : Nat) : List QuizQuestion :=
  let matchList := findCandidates response.data
  let questions := (matchList.take expected_count).filterMap parseCandidate
  let questions :=
    if questions.length < expected_count then
      questions ++ QuizGenerationChain.create_fallback_questions response
        (expected_count - questions.length)
    else questions
  questions.take expected_count

/-- QuizGenerationChain.generate_quiz_questions. The prompt construction
and chain.invoke are the generation collaborator, passed as llm; the
content truncation and the response parsing are source code. -/
def QuizGenerationChain.generate_quiz_questions
    (llm : String → String → Nat → String → PyResult String)
    (content : String) (key_points : List String)
    (num_questions : Nat) (difficulty : String) : PyResult (List QuizQuestion) :=
  let key_points_text := pyJoin ("\n") (key_points.map (fun p => "- " ++ p))
  let content := if pyLen content > 3000 then pyTake 3000 content ++ "..." else content
  match llm content key_points_text num_questions difficulty with
  | .exc e => .exc e
  | .ok response =>
    .ok (QuizGenerationChain.parse_questions_from_response response num_questions)

/- ------------------------------------------------------------------ -/
/- src/llm_chains.py - SummarizationChain                              -/
/- ------------------------------------------------------------------ -/

/-- SummarizationChain.summarize_content: prompt construction and
chain.invoke are the generation collaborator. -/
def SummarizationChain.summarize_content (llm : String → Nat → PyResult String)
    (content : String) (max_length : Nat) : PyResult String :=
  llm content max_length

/-- The characters stripped from the left of a qualifying key-point line:
line.lstrip of digits, dot, dash, bullet, closing parenthesis, space. -/
def lstripEnumChars : List Char :=
  ['0', '1', '2', '3', '4', '5', '6', '7', '8', '9', '.', '-', '•', ')', ' ']

/-- The per-line test of extract_key_points: the stripped line is nonempty
and starts with a decimal digit, a dash, or a bullet. (Python isdigit also
accepts other unicode digits; every input considered here is ASCII.) -/
def lineQualifies : List Char → Bool
  | [] => false
  | c :: _ => c.isDigit || c = '-' || c = '•'

/-- The body of the for loop over response lines in extract_key_points:
strip the line, keep it when it qualifies, then strip enumeration
punctuation and drop the line when nothing remains. -/
def keyPointOfLine (line : List Char) : Option String :=
  let l := pyStripList line
  if lineQualifies l then
    let point := pyStripList (l.dropWhile (fun c => lstripEnumChars.contains c))
    if point = [] then none else some (String.mk point)
  else none

/-- The pure parsing tail of SummarizationChain.extract_key_points: filter
the response lines and truncate to num_points. -/
def parse_key_points (text : String) (num_points : Nat) : List String :=
  ((splitOnChar '\n' text.data).filterMap keyPointOfLine).take num_points

/-- SummarizationChain.extract_key_points: generation collaborator followed
by the line filter. -/
def SummarizationChain.extract_key_points (llm : String → Nat → PyResult String)
    (content : String) (num_points : Nat) : PyResult (List String) :=
  match llm content num_points with
  | .exc e => .exc e
  | .ok resp => .ok (parse_key_points resp num_points)

/- ------------------------------------------------------------------ -/
/- src/web_serach.py                                                   -/
/- ------------------------------------------------------------------ -/

/-- The dict returned by firecrawl.scrape_url, restricted to the keys the
code reads; a missing key yields the empty-string default of result.get. -/
structure ScrapeResult where
  markdown : String
  content : String
  title : String
deriving Repr, DecidableEq

/-- A langchain Document as produced by URLContentExtractor, with the
metadata keys the extractor writes. The firecrawl branch also records a
title; the tavily branch does not. -/
structure WebDocument where
  page_content : String
  source : String
  extractor : String
  title : Option String
deriving Repr, DecidableEq

/-- One entry of response["results"] from the tavily extract endpoint. -/
structure TavilyItem where
  raw_content : Option String
deriving Repr, DecidableEq

/-- WebSearcher.get_page_content. The configured flag models whether the
tavily client exists; clientExtract models client.extract for one URL,
where a none response or a missing or empty result list yields the empty
string, and an exception is wrapped. -/
def WebSearcher.get_page_content (configured : Bool)
    (clientExtract : String → PyResult (Option (List TavilyItem)))
    (url : String) : PyResult String :=
  if !configured then .exc ("Tavily API key not configured")
  else
    match clientExtract url with
    | .exc e => .exc ("Content extraction failed: " ++ e)
    | .ok none => .ok ("")
    | .ok (some []) => .ok ("")
    | .ok (some (item :: _)) => .ok (item.raw_content.getD (""))

/-- URLContentExtractor.extract_from_url: when firecrawl is available try
it, catching any exception; otherwise, or after such an exception, run the
tavily fallback built on WebSearcher.get_page_content. A successful
firecrawl call returns its document unconditionally, taking markdown when
nonempty and the content key otherwise. -/
def URLContentExtractor.extract_from_url (firecrawl_available : Bool)
    (scrape_url : String → PyResult ScrapeResult)
    (tavily_configured : Bool)
    (tavily_extract : String → PyResult (Option (List TavilyItem)))
    (url : String) : PyResult WebDocument :=
  let fallback : PyResult WebDocument :=
    match WebSearcher.get_page_content tavily_configured tavily_extract url with
    | .exc e => .exc e
    | .ok content =>
      .ok { page_content := content, source := url, extractor := "tavily", title := none }
  if firecrawl_available then
    match scrape_url url with
    | .ok result =>
      let content := if result.markdown ≠ "" then result.markdown else result.content
      .ok { page_content := content, source := url, extractor := "firecrawl",
            title := some result.title }
    | .exc _ => fallback
  else fallback

/- ------------------------------------------------------------------ -/
/- src/agent.py - state, collaborators, nodes                          -/
/- ------------------------------------------------------------------ -/

/-- The AgentState TypedDict. The four fields that the nodes read through
state.get carry an Option, none modelling an absent dict key; every other
field is read only through direct indexing on states built by run, which
always populates it. -/
structure AgentState where
  input_type : String
  input_data : String
  raw_content : String
  study_materials : List StudyMaterial
  summary : Option String
  key_points : Option (List String)
  num_questions : Option Nat
  difficulty_level : Option String
  quiz_questions : List QuizQuestion
  current_step : String
  error : Option String
  mlflow_run_id : Option String
  messages : List String
deriving Repr, DecidableEq

/-- A chunk from the document loaders: page_content plus the optional
source metadata read by chunk.metadata.get. -/
structure Chunk where
  page_content : String
  source : Option String
deriving Repr, DecidableEq

/-- The external collaborators of one agent, each modelled as the behaviour
observed at its call site. -/
structure Collaborators where
  /-- RecursiveCharacterTextSplitter.split_documents on one document:
  the page contents of the produced chunks. -/
  splitChunks : String → List String
  /-- DocumentProcessor.process_document: raw content and chunks, or an
  exception from the loader. -/
  processDocument : String → PyResult (String × List Chunk)
  /-- validate_file_path. -/
  validFile : String → Bool
  /-- Whether the firecrawl client was created. -/
  firecrawlAvailable : Bool
  /-- firecrawl.scrape_url. -/
  scrapeUrl : String → PyResult ScrapeResult
  /-- Whether a tavily key is configured for the fallback WebSearcher. -/
  tavilyConfigured : Bool
  /-- tavily client.extract. -/
  tavilyExtract : String → PyResult (Option (List TavilyItem))
  /-- Whether the agent was built with a tavily key (self.web_searcher). -/
  hasWebSearcher : Bool
  /-- WebSearcher.search: page contents of the found documents. -/
  searchDocs : String → Nat → PyResult (List String)
  /-- The summarization generation request (prompt plus chain.invoke). -/
  summarizeLLM : String → Nat → PyResult String
  /-- The key-point generation request. -/
  keyPointsLLM : String → Nat → PyResult String
  /-- The quiz generation request, taking content, rendered key points,
  question count and difficulty. -/
  quizLLM : String → String → Nat → String → PyResult String

/-- load_content_node. The two leading writes happen before the try block;
every exception inside the try is caught, recorded in error and appended
to messages, leaving raw_content and study_materials untouched. -/
def StudyAssistantAgent.load_content_node (C : Collaborators) (s0 : AgentState) : AgentState :=
  let s := { s0 with current_step := "loading_content",
                     messages := s0.messages ++
                       ["Loading content from " ++ s0.input_type ++ "..."] }
  let loaded : PyResult (String × List StudyMaterial) :=
    if s.input_type = "file" then
      if !(C.validFile s.input_data) then .exc ("Invalid file: " ++ s.input_data)
      else
        match C.processDocument s.input_data with
        | .exc e => .exc e
        | .ok (raw, chunks) =>
          .ok (raw, chunks.map (fun ch =>
            { content := ch.page_content, source := ch.source.getD s.input_data,
              topic := none }))
    else if s.input_type = "text" then
      .ok (s.input_data, (C.splitChunks s.input_data).map (fun ch =>
        { content := ch, source := "direct_input", topic := none }))
    else if s.input_type = "url" then
      match URLContentExtractor.extract_from_url C.firecrawlAvailable C.scrapeUrl
          C.tavilyConfigured C.tavilyExtract s.input_data with
      | .exc e => .exc e
      | .ok doc =>
        .ok (doc.page_content, (C.splitChunks doc.page_content).map (fun ch =>
          { content := ch, source := s.input_data, topic := none }))
    else if s.input_type = "search" then
      if !C.hasWebSearcher then .exc ("Web search not available (Tavily API key missing)")
      else
        match C.searchDocs s.input_data 3 with
        | .exc e => .exc e
        | .ok docs =>
          let combined := pyJoin ("\n\n") docs
          .ok (combined, (C.splitChunks combined).map (fun ch =>
            { content := ch, source := "search:" ++ s.input_data, topic := some s.input_data }))
    else .exc ("Unknown input type: " ++ s.input_type)
  match loaded with
  | .ok (raw, mats) =>
    { s with raw_content := raw, study_materials := mats,
             messages := s.messages ++
               ["✓ Content loaded: " ++ toString (pyLen raw) ++ " characters"] }
  | .exc e =>
    { s with error := some e,
             messages := s.messages ++ ["✗ Error loading content: " ++ e] }

/-- process_documents_node: counts the chunks already produced; its try
block cannot fail. -/
def StudyAssistantAgent.process_documents_node (_C : Collaborators) (s0 : AgentState) : AgentState :=
  let s := { s0 with current_step := "processing_documents",
                     messages := s0.messages ++ ["Processing documents..."] }
  { s with messages := s.messages ++
      ["✓ Processed into " ++ toString s.study_materials.length ++ " chunks"] }

/-- generate_summary_node: join the study materials, truncate to 8000
characters with an ellipsis, call the summarizer; on an exception record
the error and substitute the failure sentinel for summary. -/
def StudyAssistantAgent.generate_summary_node (C : Collaborators) (s0 : AgentState) : AgentState :=
  let s := { s0 with current_step := "generating_summary",
                     messages := s0.messages ++ ["Generating summary..."] }
  let content := pyJoin ("\n\n") (s.study_materials.map (fun m => m.content))
  let content := if pyLen content > 8000 then pyTake 8000 content ++ "..." else content
  match SummarizationChain.summarize_content C.summarizeLLM content
      Config.MAX_SUMMARY_LENGTH with
  | .ok summary =>
    { s with summary := some summary,
             messages := s.messages ++
               ["✓ Summary generated (" ++ toString (pyLen summary) ++ " chars)"] }
  | .exc e =>
    { s with error := some e,
             messages := s.messages ++ ["✗ Error generating summary: " ++ e],
             summary := some ("Summary generation failed.") }

/-- extract_key_points_node: same content preparation, then the key-point
chain with num_points fixed to 10; on an exception record the error and
substitute the empty list. -/
def StudyAssistantAgent.extract_key_points_node (C : Collaborators) (s0 : AgentState) : AgentState :=
  let s := { s0 with current_step := "extracting_key_points",
                     messages := s0.messages ++ ["Extracting key points..."] }
  let content := pyJoin ("\n\n") (s.study_materials.map (fun m => m.content))
  let content := if pyLen content > 8000 then pyTake 8000 content ++ "..." else content
  match SummarizationChain.extract_key_points C.keyPointsLLM content 10 with
  | .ok key_points =>
    { s with key_points := some key_points,
             messages := s.messages ++
               ["✓ Extracted " ++ toString key_points.length ++ " key points"] }
  | .exc e =>
    { s with error := some e,
             messages := s.messages ++ ["✗ Error extracting key points: " ++ e],
             key_points := some [] }

/-- The content handed to quiz generation: state.get("summary", ...) with
the raw_content slice as the default for an absent key. -/
def quizContentOf (s : AgentState) : String :=
  s.summary.getD (pyTake 3000 s.raw_content)

/-- generate_quiz_node: read content, key points, count and difficulty
through state.get with defaults, call the quiz chain; on an exception
record the error and substitute the empty list of questions. -/
def StudyAssistantAgent.generate_quiz_node (C : Collaborators) (s0 : AgentState) : AgentState :=
  let s := { s0 with current_step := "generating_quiz",
                     messages := s0.messages ++ ["Generating quiz questions..."] }
  let content := quizContentOf s
  let key_points := s.key_points.getD []
  let num_questions := s.num_questions.getD Config.DEFAULT_NUM_QUESTIONS
  let difficulty := s.difficulty_level.getD ("mixed")
  match QuizGenerationChain.generate_quiz_questions C.quizLLM content key_points
      num_questions difficulty with
  | .ok questions =>
    { s with quiz_questions := questions,
             messages := s.messages ++
               ["✓ Generated " ++ toString questions.length ++ " quiz questions"] }
  | .exc e =>
    { s with error := some e,
             messages := s.messages ++ ["✗ Error generating quiz: " ++ e],
             quiz_questions := [] }

/-- finalize_node: appends the completion message; its try block cannot
fail. -/
def StudyAssistantAgent.finalize_node (_C : Collaborators) (s0 : AgentState) : AgentState :=
  let s := { s0 with current_step := "finalizing",
                     messages := s0.messages ++ ["Finalizing results..."] }
  { s with messages := s.messages ++ ["✓ Study assistant processing complete!"] }

/- ------------------------------------------------------------------ -/
/- src/agent.py - the graph and the run entry point                    -/
/- ------------------------------------------------------------------ -/

/-- The edges added in _build_graph, with END as a distinguished name. -/
def graphEdges : List (String × String) :=
  [("load_content", "process_documents"),
   ("process_documents", "generate_summary"),
   ("generate_summary", "extract_key_points"),
   ("extract_key_points", "generate_quiz"),
   ("generate_quiz", "finalize"),
   ("finalize", "END")]

/-- The entry point set in _build_graph. -/
def entry_point : String := "load_content"

/-- The node registry of _build_graph. -/
def nodeFn (name : String) (C : Collaborators) (s : AgentState) : AgentState :=
  if name = "load_content" then StudyAssistantAgent.load_content_node C s
  else if name = "process_documents" then StudyAssistantAgent.process_documents_node C s
  else if name = "generate_summary" then StudyAssistantAgent.generate_summary_node C s
  else if name = "extract_key_points" then StudyAssistantAgent.extract_key_points_node C s
  else if name = "generate_quiz" then StudyAssistantAgent.generate_quiz_node C s
  else if name = "finalize" then StudyAssistantAgent.finalize_node C s
  else s

/-- The unique outgoing edge of a node, END when there is none. -/
def nextNode (name : String) : String :=
  match graphEdges.find? (fun e => e.1 == name) with
  | some e => e.2
  | none => "END"

/-- Execution of the compiled graph with every state key treated as a
LastValue channel: starting from the entry point, run the current node and
follow its unique outgoing edge until END, replacing the state with the
node output at each step. The fuel bounds the number of steps; the chain
reaches END within the edge count plus one.

This captures the scheduling of the linear graph and the exact values of
every plainly-typed key, but it abstracts away the operator.add reducers
that AgentState declares on messages and quiz_questions; the
reducer-faithful executor is superstep / invokeGraphAdd below, which
differs from this one only in those two keys. -/
def graphExec : Nat → String → Collaborators → AgentState → AgentState
  | 0, _, _, s => s
  | fuel + 1, cur, C, s =>
    if cur = "END" then s
    else graphExec fuel (nextNode cur) C (nodeFn cur C s)

/-- self.graph.invoke on the compiled chain of six nodes, with every
channel treated as LastValue (see graphExec). -/
def invokeGraph (C : Collaborators) (s : AgentState) : AgentState :=
  graphExec (graphEdges.length + 1) entry_point C s

/-- One pregel superstep of the compiled graph, faithful to the channel
reducers of AgentState: messages and quiz_questions are declared
Annotated[..., operator.add] in config.py, so the value a node returns for
them is added to the current channel value instead of replacing it; every
other key is a LastValue channel taking the returned value.

Two aliasing facts of the node code fix the added operands. Every node
appends to messages in place on the very list object the channel handed
it and then returns that object, so at write time the channel value and
the returned value are the same already-extended list, and the reduced
value is that list concatenated with itself. No node mutates
quiz_questions in place: generate_quiz_node rebinds the key to a fresh
list (so the channel still holds the pre-step value and the reduced value
is old ++ returned), and every other node returns the channel object
unchanged (so the reduced value is it concatenated with itself). -/
def superstep (name : String) (C : Collaborators) (s : AgentState) : AgentState :=
  let r := nodeFn name C s
  { r with
    messages := r.messages ++ r.messages,
    quiz_questions :=
      (if name = "generate_quiz" then s.quiz_questions else r.quiz_questions) ++
        r.quiz_questions }

/-- Execution of the compiled graph with the reducer-faithful superstep. -/
def graphExecAdd : Nat → String → Collaborators → AgentState → AgentState
  | 0, _, _, s => s
  | fuel + 1, cur, C, s =>
    if cur = "END" then s
    else graphExecAdd fuel (nextNode cur) C (superstep cur C s)

/-- self.graph.invoke on the compiled chain of six nodes with the
operator.add reducers applied (the input write leaves the initial state
unchanged: adding the empty input lists to the empty channel defaults
gives empty lists, and every other key is LastValue). -/
def invokeGraphAdd (C : Collaborators) (s : AgentState) : AgentState :=
  graphExecAdd (graphEdges.length + 1) entry_point C s

/-- The initial state literal built inside StudyAssistantAgent.run: every
key is present. -/
def initial_state (input_type input_data : String) (num_questions : Nat)
    (difficulty_level : String) (run_id : Option String) : AgentState :=
  { input_type := input_type, input_data := input_data, raw_content := "",
    study_materials := [], summary := some (""), key_points := some [],
    num_questions := some num_questions, difficulty_level := some difficulty_level,
    quiz_questions := [], current_step := "initialized", error := none,
    mlflow_run_id := run_id, messages := [] }

/-- StudyAssistantAgent.run. The telemetry start_run call sits before the
try block, so its exception propagates to the caller. Inside the try, the
graph invocation is total because every node catches its exceptions, and
the MLflowTracker logging helpers and end_run catch internally (see
mlflow_tracker.py), so the except branch that re-raises is not reached
from those calls. The invocation is modelled with invokeGraph; the
reducer-faithful invokeGraphAdd agrees with it on every LastValue channel
(summary, key_points, num_questions, difficulty_level, current_step,
error, raw_content, study_materials) and on quiz_questions whenever the
quiz stage stores the empty list, differing only on the add-reduced
messages and on a nonempty quiz list, which finalize re-adds. -/
def StudyAssistantAgent.run (mlflow_start : PyResult String) (C : Collaborators)
    (input_type input_data : String) (num_questions : Nat)
    (difficulty_level : String) : PyResult AgentState :=
  match mlflow_start with
  | .exc e => .exc e
  | .ok run_id =>
    .ok (invokeGraph C
      (initial_state input_type input_data num_questions difficulty_level (some run_id)))

/- ------------------------------------------------------------------ -/
/- Shared helper lemmas                                                -/
/- ------------------------------------------------------------------ -/

/-- Executing the compiled graph walks the six nodes in the edge order:
the graph is a chain, so invocation is their sequential composition. -/
theorem invokeGraph_eq (C : Collaborators) (s : AgentState) :
    invokeGraph C s =
      StudyAssistantAgent.finalize_node C
        (StudyAssistantAgent.generate_quiz_node C
          (StudyAssistantAgent.extract_key_points_node C
            (StudyAssistantAgent.generate_summary_node C
              (StudyAssistantAgent.process_documents_node C
                (StudyAssistantAgent.load_content_node C s))))) := rfl

/-- The placeholder list has the requested length. -/
theorem create_fallback_questions_length (r : String) (k : Nat) :
    (QuizGenerationChain.create_fallback_questions r k).length = k := by
  simp [QuizGenerationChain.create_fallback_questions]

/-- Padding and truncation give _parse_questions_from_response its exact
output length, for every response text. -/
theorem parse_questions_length (response : String) (n : Nat) :
    (QuizGenerationChain.parse_questions_from_response response n).length = n := by
  have hle : (((findCandidates response.data).take n).filterMap parseCandidate).length ≤ n := by
    calc (((findCandidates response.data).take n).filterMap parseCandidate).length
        ≤ ((findCandidates response.data).take n).length := List.length_filterMap_le _ _
      _ ≤ n := by simp [List.length_take]
  simp only [QuizGenerationChain.parse_questions_from_response]
  by_cases h : (((findCandidates response.data).take n).filterMap parseCandidate).length < n
  · simp only [if_pos h, List.length_take, List.length_append,
      create_fallback_questions_length]
    omega
  · simp only [if_neg h, List.length_take]
    omega

/-- load_content_node does not touch the analysis and quiz-parameter
fields. -/
theorem load_content_node_preserves (C : Collaborators) (s : AgentState) :
    (StudyAssistantAgent.load_content_node C s).summary = s.summary ∧
    (StudyAssistantAgent.load_content_node C s).key_points = s.key_points ∧
    (StudyAssistantAgent.load_content_node C s).num_questions = s.num_questions ∧
    (StudyAssistantAgent.load_content_node C s).difficulty_level = s.difficulty_level := by
  refine ⟨?_, ?_, ?_, ?_⟩ <;>
    (simp only [StudyAssistantAgent.load_content_node]; split <;> rfl)

/-- process_documents_node only appends messages and sets the step. -/
theorem process_documents_node_preserves (C : Collaborators) (s : AgentState) :
    (StudyAssistantAgent.process_documents_node C s).summary = s.summary ∧
    (StudyAssistantAgent.process_documents_node C s).key_points = s.key_points ∧
    (StudyAssistantAgent.process_documents_node C s).num_questions = s.num_questions ∧
    (StudyAssistantAgent.process_documents_node C s).difficulty_level = s.difficulty_level :=
  ⟨rfl, rfl, rfl, rfl⟩

/-- generate_summary_node always leaves a present summary key (generated
text or the failure sentinel) and does not touch the other fields. -/
theorem generate_summary_node_fields (C : Collaborators) (s : AgentState) :
    ((StudyAssistantAgent.generate_summary_node C s).summary).isSome = true ∧
    (StudyAssistantAgent.generate_summary_node C s).key_points = s.key_points ∧
    (StudyAssistantAgent.generate_summary_node C s).num_questions = s.num_questions ∧
    (StudyAssistantAgent.generate_summary_node C s).difficulty_level = s.difficulty_level := by
  refine ⟨?_, ?_, ?_, ?_⟩ <;>
    (simp only [StudyAssistantAgent.generate_summary_node]; split <;> rfl)

/-- extract_key_points_node always leaves a present key_points key and
does not touch the other fields. -/
theorem extract_key_points_node_fields (C : Collaborators) (s : AgentState) :
    ((StudyAssistantAgent.extract_key_points_node C s).key_points).isSome = true ∧
    (StudyAssistantAgent.extract_key_points_node C s).summary = s.summary ∧
    (StudyAssistantAgent.extract_key_points_node C s).num_questions = s.num_questions ∧
    (StudyAssistantAgent.extract_key_points_node C s).difficulty_level = s.difficulty_level := by
  refine ⟨?_, ?_, ?_, ?_⟩ <;>
    (simp only [StudyAssistantAgent.extract_key_points_node]; split <;> rfl)

/-- generate_quiz_node does not touch the analysis and quiz-parameter
fields. -/
theorem generate_quiz_node_preserves (C : Collaborators) (s : AgentState) :
    (StudyAssistantAgent.generate_quiz_node C s).summary = s.summary ∧
    (StudyAssistantAgent.generate_quiz_node C s).key_points = s.key_points ∧
    (StudyAssistantAgent.generate_quiz_node C s).num_questions = s.num_questions ∧
    (StudyAssistantAgent.generate_quiz_node C s).difficulty_level = s.difficulty_level := by
  refine ⟨?_, ?_, ?_, ?_⟩ <;>
    (simp only [StudyAssistantAgent.generate_quiz_node]; split <;> rfl)

/-- finalize_node only appends messages and sets the terminal step. -/
theorem finalize_node_fields (C : Collaborators) (s : AgentState) :
    (StudyAssistantAgent.finalize_node C s).summary = s.summary ∧
    (StudyAssistantAgent.finalize_node C s).key_points = s.key_points ∧
    (StudyAssistantAgent.finalize_node C s).num_questions = s.num_questions ∧
    (StudyAssistantAgent.finalize_node C s).difficulty_level = s.difficulty_level ∧
    (StudyAssistantAgent.finalize_node C s).current_step = "finalizing" :=
  ⟨rfl, rfl, rfl, rfl, rfl⟩

/- ------------------------------------------------------------------ -/
/- Concrete fixtures shared by several claims                          -/
/- ------------------------------------------------------------------ -/

/-- A response fragment that parses into a well-formed question. -/
def validQuizJson : String :=
  "\x7b\"question\": \"What is X?\", \"options\": [\"A1\", \"B1\", \"C1\", \"D1\"], \"correct_answer\": \"A\", \"explanation\": \"Because.\", \"difficulty\": \"easy\"\x7d"

/-- The question validQuizJson denotes. -/
def validQuizQuestion : QuizQuestion :=
  { question := "What is X?", options := ["A1", "B1", "C1", "D1"],
    correct_answer := "A", explanation := "Because.", difficulty := "easy" }

/-- A collaborator bundle in which every external call raises. -/
def failAll : Collaborators :=
  { splitChunks := fun t => [t]
    processDocument := fun _ => .exc ("no fs")
    validFile := fun _ => false
    firecrawlAvailable := false
    scrapeUrl := fun _ => .exc ("no firecrawl")
    tavilyConfigured := false
    tavilyExtract := fun _ => .exc ("no tavily")
    hasWebSearcher := false
    searchDocs := fun _ _ => .exc ("no search")
    summarizeLLM := fun _ _ => .exc ("LLM down A")
    keyPointsLLM := fun _ _ => .exc ("LLM down B")
    quizLLM := fun _ _ _ _ => .exc ("LLM down C") }

/- ------------------------------------------------------------------ -/
/- Claim C1                                                            -/
/- ------------------------------------------------------------------ -/

/-- A response whose single candidate passes pydantic validation with one
option: the model places no length constraint on options. -/
def oneOptionQuizJson : String :=
  "\x7b\"question\": \"Q\", \"options\": [\"only\"], \"correct_answer\": \"A\", \"explanation\": \"E\", \"difficulty\": \"easy\"\x7d"

set_option maxRecDepth 100000

/-- C1 counterexample: for numQuestions = 1 in [1,20] and a response whose
one JSON candidate carries a single-element options list, quiz synthesis
returns one parsed record whose options field has 1 entry, not 4 — the
claim that every returned record has exactly 4 options fails. -/
theorem c1_counterexample :
    (QuizGenerationChain.parse_questions_from_response oneOptionQuizJson 1).map
        (fun q => q.options.length) = [1] ∧ (1 : Nat) ≠ 4 := by
  constructor
  · decide
  · decide

/-- C1 amended: for every numQuestions and every response text, quiz
synthesis returns exactly numQuestions records, and every placeholder
record has exactly 4 options; a parsed record, however, keeps whatever
number of options its JSON candidate carried. -/
theorem c1_amended (response : String) (n : Nat) :
    (QuizGenerationChain.parse_questions_from_response response n).length = n ∧
    (∀ (r : String) (k : Nat),
      (QuizGenerationChain.create_fallback_questions r k).all
        (fun q => q.options.length == 4) = true) := by
  refine ⟨parse_questions_length response n, ?_⟩
  intro r k
  simp [QuizGenerationChain.create_fallback_questions, List.all_eq_true]

/- ------------------------------------------------------------------ -/
/- Claim C2                                                            -/
/- ------------------------------------------------------------------ -/

/-- A response with two unparseable brace fragments before one valid
candidate: k = 1 parseable candidate among three. -/
def garbageThenValid : String := "\x7bx\x7d \x7by\x7d " ++ validQuizJson

/-- C2 counterexample: with numQuestions = 2 the response above holds
exactly k = 1 parseable candidate interleaved with garbage, yet both
returned questions are placeholders — the valid candidate is never tried
because matches[:expected_count] keeps only the first 2 candidates, so a
failing candidate does shorten the scan. -/
theorem c2_counterexample :
    (QuizGenerationChain.parse_questions_from_response garbageThenValid 2).map
        (fun q => q.question) =
      ["Question 1: Based on the study material, what is an important concept to understand?",
       "Question 2: Based on the study material, what is an important concept to understand?"] ∧
    parseCandidate validQuizJson.data = some validQuizQuestion := by
  constructor
  · decide
  · decide

/-- C2 amended: the scan attempts only the first numQuestions candidate
substrings; within that window a candidate that fails to parse is silently
discarded without aborting the scan, and the parsed questions are padded
with exactly numQuestions minus (number parsed) placeholders. -/
theorem c2_amended (response : String) (n : Nat) :
    QuizGenerationChain.parse_questions_from_response response n =
      ((findCandidates response.data).take n).filterMap parseCandidate ++
        QuizGenerationChain.create_fallback_questions response
          (n - (((findCandidates response.data).take n).filterMap parseCandidate).length) := by
  have hle : (((findCandidates response.data).take n).filterMap parseCandidate).length ≤ n := by
    calc (((findCandidates response.data).take n).filterMap parseCandidate).length
        ≤ ((findCandidates response.data).take n).length := List.length_filterMap_le _ _
      _ ≤ n := by simp [List.length_take]
  simp only [QuizGenerationChain.parse_questions_from_response]
  by_cases h : (((findCandidates response.data).take n).filterMap parseCandidate).length < n
  · rw [if_pos h]
    have htot : ((((findCandidates response.data).take n).filterMap parseCandidate) ++
        QuizGenerationChain.create_fallback_questions response
          (n - (((findCandidates response.data).take n).filterMap parseCandidate).length)).length ≤ n := by
      rw [List.length_append, create_fallback_questions_length]
      omega
    exact List.take_of_length_le htot
  · rw [if_neg h]
    have hn : n - (((findCandidates response.data).take n).filterMap parseCandidate).length = 0 := by
      omega
    rw [hn]
    have hz : QuizGenerationChain.create_fallback_questions response 0 = [] := rfl
    rw [hz, List.append_nil]
    exact List.take_of_length_le (by omega)

/- ------------------------------------------------------------------ -/
/- Claim C3                                                            -/
/- ------------------------------------------------------------------ -/

/-- C3 counterexample: a full pipeline run over text input with every
generation call raising terminates with quizQuestions empty, not with
numQuestions = 1 deterministic placeholders — when the quiz generation
call raises, generate_quiz_node catches it and stores the empty list, and
the placeholder padding is never reached. -/
theorem c3_counterexample :
    (invokeGraph failAll (initial_state ("text") ("hi") 1 ("easy")
        (some ("rid")))).quiz_questions = [] ∧
    (0 : Nat) ≠ 1 := by
  constructor
  · rfl
  · decide

/-- C3 amended: with every generation call raising, the run completes
without raising and its terminal state has error set (to the quiz-stage
message), summary equal to the failure sentinel, keyPoints empty, and
quizQuestions equal to the empty list rather than numQuestions
placeholders. -/
theorem c3_amended (C : Collaborators) (payload : String) (n : Nat)
    (rid difficulty ea eb ec : String)
    (hA : ∀ c m, C.summarizeLLM c m = .exc ea)
    (hB : ∀ c m, C.keyPointsLLM c m = .exc eb)
    (hQ : ∀ c k q d, C.quizLLM c k q d = .exc ec) :
    ∃ fs, StudyAssistantAgent.run (.ok rid) C ("text") payload n difficulty = .ok fs ∧
      fs.error = some ec ∧
      fs.summary = some ("Summary generation failed.") ∧
      fs.key_points = some [] ∧
      fs.quiz_questions = [] := by
  refine ⟨_, rfl, ?_, ?_, ?_, ?_⟩ <;>
    simp [invokeGraph_eq, StudyAssistantAgent.load_content_node,
      StudyAssistantAgent.process_documents_node,
      StudyAssistantAgent.generate_summary_node,
      StudyAssistantAgent.extract_key_points_node,
      StudyAssistantAgent.generate_quiz_node,
      StudyAssistantAgent.finalize_node,
      SummarizationChain.summarize_content, SummarizationChain.extract_key_points,
      QuizGenerationChain.generate_quiz_questions, initial_state, quizContentOf,
      hA, hB, hQ]

/-- C3 witness: the amended theorem applied to the all-failing
collaborators at concrete inputs. -/
theorem c3_amended_witness :
    ∃ fs, StudyAssistantAgent.run (.ok ("rid")) failAll ("text") ("hi") 1 ("easy") = .ok fs ∧
      fs.error = some ("LLM down C") ∧
      fs.summary = some ("Summary generation failed.") ∧
      fs.key_points = some [] ∧
      fs.quiz_questions = [] :=
  c3_amended failAll ("hi") 1 ("rid") ("easy") ("LLM down A") ("LLM down B") ("LLM down C")
    (fun _ _ => rfl) (fun _ _ => rfl) (fun _ _ _ _ => rfl)

/- ------------------------------------------------------------------ -/
/- Claim C4                                                            -/
/- ------------------------------------------------------------------ -/

/-- C4 counterexample: the primary extractor is configured and returns
empty content; the call returns that empty firecrawl document even though
the fallback would have raised — so the fallback is not invoked when the
primary returns empty content, and the caller observes the primary value,
refuting the empty-content part of the claim. -/
theorem c4_counterexample :
    URLContentExtractor.extract_from_url true
        (fun _ => .ok { markdown := "", content := "", title := "" })
        false (fun _ => .exc ("tavily down")) ("http://example.com") =
      .ok { page_content := "", source := "http://example.com",
            extractor := "firecrawl", title := some ("") } := rfl

/-- C4 amended: the fallback path is taken exactly when the primary
extractor is unconfigured or raises — in the raising case the caller
observes precisely what it would observe with no primary at all, so the
primary exception never escapes; a successful primary response is
returned as is, even when its content is empty. -/
theorem c4_amended (scrape : String → PyResult ScrapeResult) (tc : Bool)
    (te : String → PyResult (Option (List TavilyItem))) (url e : String) :
    (URLContentExtractor.extract_from_url false scrape tc te url =
      URLContentExtractor.extract_from_url false (fun _ => .exc e) tc te url) ∧
    (URLContentExtractor.extract_from_url true (fun _ => .exc e) tc te url =
      URLContentExtractor.extract_from_url false scrape tc te url) ∧
    (∀ r, URLContentExtractor.extract_from_url true (fun _ => .ok r) tc te url =
      .ok { page_content := if r.markdown ≠ "" then r.markdown else r.content,
            source := url, extractor := "firecrawl", title := some r.title }) :=
  ⟨rfl, rfl, fun _ => rfl⟩

/- ------------------------------------------------------------------ -/
/- Claim C5                                                            -/
/- ------------------------------------------------------------------ -/

/-- Collaborators whose summarizer succeeds while the key-point generation
raises. -/
def summaryOkKpFail : Collaborators :=
  { failAll with summarizeLLM := fun _ _ => .ok ("S") }

/-- C5 counterexample: running the two analysis sub-stages with a
succeeding summary sub-task and a failing key-point sub-task leaves
keyPoints reset to empty but summary equal to the generated text, not the
failure sentinel — the two outputs are not reset together. -/
theorem c5_counterexample :
    (StudyAssistantAgent.extract_key_points_node summaryOkKpFail
      (StudyAssistantAgent.generate_summary_node summaryOkKpFail
        (initial_state ("text") ("hi") 1 ("easy") none))).key_points = some [] ∧
    (StudyAssistantAgent.extract_key_points_node summaryOkKpFail
      (StudyAssistantAgent.generate_summary_node summaryOkKpFail
        (initial_state ("text") ("hi") 1 ("easy") none))).summary = some ("S") ∧
    ("S" : String) ≠ "Summary generation failed." := by
  refine ⟨rfl, rfl, ?_⟩
  decide

/-- C5 amended: the two analysis sub-tasks reset their outputs
independently — a failing summary sub-task sets summary to the sentinel
and records the error, leaving keyPoints untouched; a failing key-point
sub-task sets keyPoints to the empty sequence and records the error,
leaving summary untouched. -/
theorem c5_amended (base : Collaborators) (s : AgentState) (e1 e2 : String) :
    ((StudyAssistantAgent.generate_summary_node
        { base with summarizeLLM := fun _ _ => .exc e1 } s).summary =
          some ("Summary generation failed.") ∧
     (StudyAssistantAgent.generate_summary_node
        { base with summarizeLLM := fun _ _ => .exc e1 } s).key_points = s.key_points ∧
     (StudyAssistantAgent.generate_summary_node
        { base with summarizeLLM := fun _ _ => .exc e1 } s).error = some e1) ∧
    ((StudyAssistantAgent.extract_key_points_node
        { base with keyPointsLLM := fun _ _ => .exc e2 } s).key_points = some [] ∧
     (StudyAssistantAgent.extract_key_points_node
        { base with keyPointsLLM := fun _ _ => .exc e2 } s).summary = s.summary ∧
     (StudyAssistantAgent.extract_key_points_node
        { base with keyPointsLLM := fun _ _ => .exc e2 } s).error = some e2) := by
  refine ⟨⟨?_, ?_, ?_⟩, ?_, ?_, ?_⟩ <;>
    simp [StudyAssistantAgent.generate_summary_node,
      StudyAssistantAgent.extract_key_points_node,
      SummarizationChain.summarize_content, SummarizationChain.extract_key_points]

/- ------------------------------------------------------------------ -/
/- Claim C6                                                            -/
/- ------------------------------------------------------------------ -/

/-- C6 counterexample: the telemetry start_run call sits before the try
block of run, so when the experiment-tracking collaborator raises there,
the exception escapes to the caller — run does not return a state for
every behaviour of the external collaborators. -/
theorem c6_counterexample :
    StudyAssistantAgent.run (.exc ("MLflow tracking server unreachable")) failAll
        ("text") ("hi") 1 ("easy") =
      .exc ("MLflow tracking server unreachable") := rfl

/-- C6 amended: provided the telemetry start_run call succeeds, run
returns a well-formed terminal state for every input kind, every payload
and every behaviour of the remaining collaborators: summary and keyPoints
keys are present, the quiz parameters survive unchanged, and the final
step marker is set. Node-level exceptions are all caught inside the
stages. -/
theorem c6_amended (C : Collaborators) (input_type input_data : String)
    (n : Nat) (d rid : String) :
    ∃ fs, StudyAssistantAgent.run (.ok rid) C input_type input_data n d = .ok fs ∧
      fs.summary.isSome = true ∧
      fs.key_points.isSome = true ∧
      fs.num_questions = some n ∧
      fs.difficulty_level = some d ∧
      fs.current_step = "finalizing" := by
  refine ⟨_, rfl, ?_, ?_, ?_, ?_, ?_⟩
  · rw [invokeGraph_eq, (finalize_node_fields _ _).1,
      (generate_quiz_node_preserves _ _).1, (extract_key_points_node_fields _ _).2.1]
    exact (generate_summary_node_fields _ _).1
  · rw [invokeGraph_eq, (finalize_node_fields _ _).2.1,
      (generate_quiz_node_preserves _ _).2.1]
    exact (extract_key_points_node_fields _ _).1
  · rw [invokeGraph_eq, (finalize_node_fields _ _).2.2.1,
      (generate_quiz_node_preserves _ _).2.2.1,
      (extract_key_points_node_fields _ _).2.2.1,
      (generate_summary_node_fields _ _).2.2.1,
      (process_documents_node_preserves _ _).2.2.1,
      (load_content_node_preserves _ _).2.2.1]
    rfl
  · rw [invokeGraph_eq, (finalize_node_fields _ _).2.2.2.1,
      (generate_quiz_node_preserves _ _).2.2.2,
      (extract_key_points_node_fields _ _).2.2.2,
      (generate_summary_node_fields _ _).2.2.2,
      (process_documents_node_preserves _ _).2.2.2,
      (load_content_node_preserves _ _).2.2.2]
    rfl
  · rw [invokeGraph_eq]
    exact (finalize_node_fields _ _).2.2.2.2

/- ------------------------------------------------------------------ -/
/- Claim C7                                                            -/
/- ------------------------------------------------------------------ -/

theorem load_content_node_messages (C : Collaborators) (s : AgentState) :
    ∃ t, (StudyAssistantAgent.load_content_node C s).messages = s.messages ++ t := by
  simp only [StudyAssistantAgent.load_content_node]
  split <;> exact ⟨_, List.append_assoc _ _ _⟩

theorem process_documents_node_messages (C : Collaborators) (s : AgentState) :
    ∃ t, (StudyAssistantAgent.process_documents_node C s).messages = s.messages ++ t :=
  ⟨_, List.append_assoc _ _ _⟩

theorem generate_summary_node_messages (C : Collaborators) (s : AgentState) :
    ∃ t, (StudyAssistantAgent.generate_summary_node C s).messages = s.messages ++ t := by
  simp only [StudyAssistantAgent.generate_summary_node]
  split <;> exact ⟨_, List.append_assoc _ _ _⟩

theorem extract_key_points_node_messages (C : Collaborators) (s : AgentState) :
    ∃ t, (StudyAssistantAgent.extract_key_points_node C s).messages = s.messages ++ t := by
  simp only [StudyAssistantAgent.extract_key_points_node]
  split <;> exact ⟨_, List.append_assoc _ _ _⟩

theorem generate_quiz_node_messages (C : Collaborators) (s : AgentState) :
    ∃ t, (StudyAssistantAgent.generate_quiz_node C s).messages = s.messages ++ t := by
  simp only [StudyAssistantAgent.generate_quiz_node]
  split <;> exact ⟨_, List.append_assoc _ _ _⟩

theorem finalize_node_messages (C : Collaborators) (s : AgentState) :
    ∃ t, (StudyAssistantAgent.finalize_node C s).messages = s.messages ++ t :=
  ⟨_, List.append_assoc _ _ _⟩

/-- The graph execution with reducers is the sequential composition of
the six supersteps. -/
theorem invokeGraphAdd_eq (C : Collaborators) (s : AgentState) :
    invokeGraphAdd C s =
      superstep ("finalize") C (superstep ("generate_quiz") C
        (superstep ("extract_key_points") C (superstep ("generate_summary") C
          (superstep ("process_documents") C
            (superstep ("load_content") C s))))) := rfl

/-- Every entry of the node registry extends the messages it receives. -/
theorem nodeFn_messages (name : String) (C : Collaborators) (s : AgentState) :
    ∃ t, (nodeFn name C s).messages = s.messages ++ t := by
  unfold nodeFn
  split_ifs
  · exact load_content_node_messages C s
  · exact process_documents_node_messages C s
  · exact generate_summary_node_messages C s
  · exact extract_key_points_node_messages C s
  · exact generate_quiz_node_messages C s
  · exact finalize_node_messages C s
  · exact ⟨[], (List.append_nil _).symm⟩

/-- A reducer-faithful superstep only appends to messages: the pre-step
channel value is a prefix of the reduced value. -/
theorem superstep_messages (name : String) (C : Collaborators) (s : AgentState) :
    ∃ t, (superstep name C s).messages = s.messages ++ t := by
  obtain ⟨t0, h0⟩ := nodeFn_messages name C s
  refine ⟨t0 ++ (s.messages ++ t0), ?_⟩
  show (nodeFn name C s).messages ++ (nodeFn name C s).messages =
    s.messages ++ (t0 ++ (s.messages ++ t0))
  rw [h0, List.append_assoc]

/-- C7 counterexample: under the operator.add reducers of the real graph,
the terminal messages is not the full ordered history of the per-stage
entries: the text-input run with every generation call failing produces
12 distinct stage entries but terminates with 252 messages, the first two
entries already duplicated in places 3 and 4 — each superstep re-appends
the whole existing list, so entries are not only appended once each. -/
theorem c7_counterexample :
    (invokeGraphAdd failAll (initial_state ("text") ("hi") 1 ("easy")
        (some ("rid")))).messages.length = 252 ∧
    (invokeGraphAdd failAll (initial_state ("text") ("hi") 1 ("easy")
        (some ("rid")))).messages.take 4 =
      ["Loading content from text...", "✓ Content loaded: 2 characters",
       "Loading content from text...", "✓ Content loaded: 2 characters"] ∧
    (252 : Nat) ≠ 12 := by
  refine ⟨?_, ?_, ?_⟩ <;> decide

/-- C7 amended: under the reducer-faithful execution, every superstep and
every whole run only ever appends to messages (nothing is removed or
reordered), and when several stages fail in one run the error field, a
LastValue channel, holds the message of the last failing stage — with all
three generation sub-tasks failing, error carries the quiz-stage message.
The per-stage trail still occurs inside the terminal messages in order,
as a subsequence of the concrete all-failing run, but duplicated: because
messages carries an operator.add reducer and every node returns the full
mutated state, each superstep re-appends the entire existing list, so the
terminal messages is not the clean stage history. -/
theorem c7_amended :
    (∀ (name : String) (C : Collaborators) (s : AgentState),
      ∃ t, (superstep name C s).messages = s.messages ++ t) ∧
    (∀ (C : Collaborators) (s : AgentState),
      ∃ t, (invokeGraphAdd C s).messages = s.messages ++ t) ∧
    (∀ (base : Collaborators) (payload rid d ea eb ec : String) (n : Nat),
      (invokeGraphAdd
          { base with summarizeLLM := fun _ _ => .exc ea,
                      keyPointsLLM := fun _ _ => .exc eb,
                      quizLLM := fun _ _ _ _ => .exc ec }
          (initial_state ("text") payload n d (some rid))).error = some ec) ∧
    List.Sublist
      ["Loading content from text...", "✓ Content loaded: 2 characters",
       "Processing documents...", "✓ Processed into 1 chunks",
       "Generating summary...", "✗ Error generating summary: LLM down A",
       "Extracting key points...", "✗ Error extracting key points: LLM down B",
       "Generating quiz questions...", "✗ Error generating quiz: LLM down C",
       "Finalizing results...", "✓ Study assistant processing complete!"]
      (invokeGraphAdd failAll (initial_state ("text") ("hi") 1 ("easy")
        (some ("rid")))).messages := by
  refine ⟨superstep_messages, ?_, ?_, ?_⟩
  · intro C s
    rw [invokeGraphAdd_eq]
    obtain ⟨t1, h1⟩ := superstep_messages ("load_content") C s
    obtain ⟨t2, h2⟩ := superstep_messages ("process_documents") C
      (superstep ("load_content") C s)
    obtain ⟨t3, h3⟩ := superstep_messages ("generate_summary") C
      (superstep ("process_documents") C (superstep ("load_content") C s))
    obtain ⟨t4, h4⟩ := superstep_messages ("extract_key_points") C
      (superstep ("generate_summary") C
        (superstep ("process_documents") C (superstep ("load_content") C s)))
    obtain ⟨t5, h5⟩ := superstep_messages ("generate_quiz") C
      (superstep ("extract_key_points") C
        (superstep ("generate_summary") C
          (superstep ("process_documents") C (superstep ("load_content") C s))))
    obtain ⟨t6, h6⟩ := superstep_messages ("finalize") C
      (superstep ("generate_quiz") C
        (superstep ("extract_key_points") C
          (superstep ("generate_summary") C
            (superstep ("process_documents") C (superstep ("load_content") C s)))))
    refine ⟨t1 ++ (t2 ++ (t3 ++ (t4 ++ (t5 ++ t6)))), ?_⟩
    rw [h6, h5, h4, h3, h2, h1]
    simp [List.append_assoc]
  · intro base payload rid d ea eb ec n
    simp [invokeGraphAdd_eq, superstep, nodeFn, StudyAssistantAgent.load_content_node,
      StudyAssistantAgent.process_documents_node,
      StudyAssistantAgent.generate_summary_node,
      StudyAssistantAgent.extract_key_points_node,
      StudyAssistantAgent.generate_quiz_node,
      StudyAssistantAgent.finalize_node,
      SummarizationChain.summarize_content, SummarizationChain.extract_key_points,
      QuizGenerationChain.generate_quiz_questions, initial_state, quizContentOf]
  · decide

/- ------------------------------------------------------------------ -/
/- Claim C8                                                            -/
/- ------------------------------------------------------------------ -/

/-- C8 counterexample: the built graph contains no fan-out or join — the
single edge out of the summary stage leads to the key-point stage, every
node has at most one outgoing edge (the edge sources are pairwise
distinct), and the key-point stage has a single predecessor. The two
analysis sub-tasks are therefore sequenced one after the other, never
issued concurrently at a fan-out/join point. -/
theorem c8_counterexample :
    ((graphEdges.filter (fun e => e.1 == "generate_summary")).map (fun e => e.2) =
      ["extract_key_points"]) ∧
    (graphEdges.map (fun e => e.1)).Nodup ∧
    ((graphEdges.filter (fun e => e.2 == "extract_key_points")).map (fun e => e.1) =
      ["generate_summary"]) := by
  refine ⟨?_, ?_, ?_⟩ <;> decide

/-- C8 amended: all stages execute strictly sequentially — graph
invocation equals the sequential composition of the six stage functions,
with key-point extraction applied to the completed output of summary
generation — and the edge relation is a chain with pairwise distinct
sources, so the system has no fan-out/join point at all. -/
theorem c8_amended (C : Collaborators) (s : AgentState) :
    (invokeGraph C s =
      StudyAssistantAgent.finalize_node C
        (StudyAssistantAgent.generate_quiz_node C
          (StudyAssistantAgent.extract_key_points_node C
            (StudyAssistantAgent.generate_summary_node C
              (StudyAssistantAgent.process_documents_node C
                (StudyAssistantAgent.load_content_node C s)))))) ∧
    (graphEdges.map (fun e => e.1)).Nodup :=
  ⟨invokeGraph_eq C s, by decide⟩

/- ------------------------------------------------------------------ -/
/- Claim C9                                                            -/
/- ------------------------------------------------------------------ -/

/-- C9 counterexample: the line "1." is trimmed to itself and begins with
a digit, so by the claimed rule it would be kept, yet key-point extraction
returns nothing for it: after stripping the leading enumeration
punctuation the remainder is empty and the line is dropped. -/
theorem c9_counterexample :
    parse_key_points ("1.") 10 = [] ∧
    lineQualifies (pyStripList (("1.").data)) = true := by
  refine ⟨?_, ?_⟩ <;> decide

/-- The line rule of the amended claim, stated from the spec wording with
the extra condition the code enforces: after trimming, the line begins
with a digit, a dash, or a bullet, and stripping the leading enumeration
punctuation leaves a nonempty remainder. -/
def specLineKept (line : List Char) : Bool :=
  match pyStripList line with
  | [] => false
  | c :: rest =>
    (c.isDigit || c = '-' || c = '•') &&
      !(pyStripList ((c :: rest).dropWhile (fun d => lstripEnumChars.contains d))).isEmpty

/-- The key point a kept line denotes: the trimmed remainder after the
enumeration punctuation. -/
def specLineValue (line : List Char) : String :=
  String.mk (pyStripList ((pyStripList line).dropWhile (fun d => lstripEnumChars.contains d)))

theorem keyPointOfLine_eq_spec (line : List Char) :
    keyPointOfLine line = if specLineKept line then some (specLineValue line) else none := by
  simp only [keyPointOfLine, specLineKept, specLineValue, lineQualifies]
  cases h : pyStripList line with
  | nil => simp
  | cons c rest =>
    by_cases hq : (c.isDigit || c = '-' || c = '•') = true
    · cases hpt : pyStripList (List.dropWhile (fun d => decide (d ∈ lstripEnumChars)) (c :: rest)) with
      | nil => simp [hq, hpt]
      | cons p ps => simp [hq, hpt]
    · simp [Bool.not_eq_true] at hq
      simp [hq]

theorem filterMap_keyPointOfLine (L : List (List Char)) :
    L.filterMap keyPointOfLine = (L.filter specLineKept).map specLineValue := by
  induction L with
  | nil => rfl
  | cons hd tl ih =>
    rw [List.filterMap_cons, List.filter_cons, keyPointOfLine_eq_spec]
    by_cases hk : specLineKept hd
    · simp [hk, ih]
    · simp [hk, ih]

/-- C9 amended: a line contributes a key point exactly when, after
trimming, it begins with a digit, a dash, or a bullet AND stripping its
leading enumeration punctuation leaves a nonempty remainder; contributing
lines appear in order, truncated to the requested count. On the concrete
spec input the result is exactly Point A, Point B, Point C, with Intro and
the random line discarded. -/
theorem c9_amended (text : String) (n : Nat) :
    (parse_key_points text n =
      (((splitOnChar '\n' text.data).filter specLineKept).map specLineValue).take n) ∧
    SummarizationChain.extract_key_points
        (fun _ _ => .ok ("Intro\n1. Point A\n- Point B\n• Point C\nrandom line"))
        ("content") 10 =
      .ok (["Point A", "Point B", "Point C"]) := by
  constructor
  · unfold parse_key_points
    rw [filterMap_keyPointOfLine]
  · decide

/- ------------------------------------------------------------------ -/
/- Claim C10                                                           -/
/- ------------------------------------------------------------------ -/

/-- C10: the content handed to quiz generation is the summary field
whenever the key is present; the summary key is present in the state
reaching the quiz stage for every collaborator behaviour and input kind
(so the raw_content slice default of state.get is dead); and when the
summary sub-task failed, the quiz content is the literal sentinel, not a
slice of the source text. -/
theorem c10_confirmed :
    (∀ (s : AgentState) (v : String), quizContentOf { s with summary := some v } = v) ∧
    (∀ (C : Collaborators) (it idata d : String) (n : Nat) (rid : Option String),
      ((StudyAssistantAgent.extract_key_points_node C
        (StudyAssistantAgent.generate_summary_node C
          (StudyAssistantAgent.process_documents_node C
            (StudyAssistantAgent.load_content_node C
              (initial_state it idata n d rid))))).summary).isSome = true) ∧
    (∀ (base : Collaborators) (s : AgentState) (e : String),
      quizContentOf
        (StudyAssistantAgent.extract_key_points_node base
          (StudyAssistantAgent.generate_summary_node
            { base with summarizeLLM := fun _ _ => .exc e } s)) =
        "Summary generation failed.") := by
  refine ⟨fun s v => rfl, ?_, ?_⟩
  · intro C it idata d n rid
    rw [(extract_key_points_node_fields _ _).2.1]
    exact (generate_summary_node_fields _ _).1
  · intro base s e
    have h1 := (extract_key_points_node_fields base
      (StudyAssistantAgent.generate_summary_node
        { base with summarizeLLM := fun _ _ => .exc e } s)).2.1
    have h2 : (StudyAssistantAgent.generate_summary_node
        { base with summarizeLLM := fun _ _ => .exc e } s).summary =
        some ("Summary generation failed.") := by
      simp [StudyAssistantAgent.generate_summary_node,
        SummarizationChain.summarize_content]
    simp only [quizContentOf, h1, h2, Option.getD_some]
